import Mathlib

/-!
  Verification development for the flow2api repository.

  The definitions below are a shallow embedding of the request orchestration
  code in `src/src/services/flow_client.py`, the browser captcha service in
  `src/src/services/browser_captcha_personal.py` (and the identical singleton
  accessor in `src/src/services/browser_captcha.py`), and the background task
  loops in `src/src/main.py`.  External effects (the HTTP transport, the
  browser, the database) are passed in as explicit outcome parameters of type
  `Except String _`, mirroring which Python calls can raise and which results
  they return; `Option String` models Python optional strings, with Python
  truthiness made explicit.  The per-account concurrency counter is modelled
  from the specification, since `services/concurrency_manager.py` is not part
  of the provided sources.
-/

namespace Flow2Api

/-- Python truthiness for an optional string: `None` and the empty string are
falsy, every other string is truthy. -/
def truthy : Option String → Bool
  | none => false
  | some s => s != ""

/-- Substring test mirroring the Python `in` operator on strings. -/
def strContains (haystack needle : String) : Bool :=
  decide (needle.data <:+: haystack.data)

/-- Error classification used by every video-generation retry loop in
`flow_client.py` (for example line 481): the source checks
`"403" in str(e) or "reCAPTCHA" in str(e)` on the exception text. -/
def isCaptchaError (e : String) : Bool :=
  strContains e "403" || strContains e "reCAPTCHA"

/-- Abstraction of an HTTP response as `FlowClient._make_request` consumes it:
a status code, the raw text, and the parsed JSON body (of an abstract type
`J`). -/
structure HttpResponse (J : Type) where
  status_code : Nat
  text : String
  body : J

/-- Embedding of the status check inside the `try` block of
`FlowClient._make_request` (`flow_client.py` lines 226-239): a 2xx response
returns the parsed body, any other status raises an exception whose message
interpolates the status code and the response text. -/
def makeRequestInner {J : Type} (resp : HttpResponse J) : Except String J :=
  if 200 ≤ resp.status_code ∧ resp.status_code < 300 then
    Except.ok resp.body
  else
    Except.error ("Flow API request failed: " ++ toString resp.status_code ++ " - " ++ resp.text)

/-- Embedding of `FlowClient._make_request` (`flow_client.py` lines 97-245).
`transport` is the outcome of the single network call made by the method: a
transport-level exception (timeout, connection error) or a delivered
response.  The surrounding `except` clause re-raises every exception wrapped
once more in the `Flow API request failed:` prefix.  The method performs
exactly one transport call and no retry. -/
def make_request {J : Type} (transport : Except String (HttpResponse J)) : Except String J :=
  match transport >>= makeRequestInner with
  | Except.ok j => Except.ok j
  | Except.error e => Except.error ("Flow API request failed: " ++ e)

/-- Embedding of the account-identifier derivation in `FlowClient._make_request`
(`flow_client.py` lines 133-138): a truthy explicit `account_id` wins,
otherwise the first 16 characters of a truthy session token, otherwise the
first 16 characters of a truthy bearer token, otherwise the original (falsy)
`account_id` value is kept unchanged. -/
def makeRequestAccountId (account_id st_token at_token : Option String) : Option String :=
  if truthy account_id then account_id
  else if truthy st_token then Option.map (fun s => s.take 16) st_token
  else if truthy at_token then Option.map (fun s => s.take 16) at_token
  else account_id

/-- Embedding of the fallback account id used by `FlowClient.generate_image`
and the video-generation methods (for example `flow_client.py` lines 374 and
425): `account_id if account_id else (at[:16] if at else "default")`. -/
def fallbackAccountId (account_id : Option String) (at_ : String) : String :=
  if truthy account_id then account_id.getD ""
  else if at_ != "" then at_.take 16
  else "default"

/-- Executable model of the Python `str.lower()` call: lower-case every
character.  (`String.toLower` from the library is extensionally the same on
the ASCII account ids involved, but is defined by well-founded recursion and
does not reduce inside the kernel, so the embedding maps over the character
list directly.) -/
def pyLower (s : String) : String :=
  String.mk (s.data.map Char.toLower)

/-- User-Agent string hard-coded in `FlowClient._generate_user_agent`
(`flow_client.py` line 90), returned on every cache miss when no browser
service is attached. -/
def fixedChromeUA : String :=
  "Mozilla/5.0 (Windows NT 10.0; Win64; x64) AppleWebKit/537.36 (KHTML, like Gecko) Chrome/110.0.0.0 Safari/537.36"

/-- Embedding of `FlowClient._generate_user_agent` (`flow_client.py` lines
42-95) in the configuration the claim speaks about: `self.browser_service`
is `None`, so the browser branch is skipped.  `md5seed` stands for the
`int(hashlib.md5(account_id.encode()).hexdigest()[:8], 16)` computation: the
source computes it into a local random generator that is never consulted,
because the returned value is the hard-coded `fixedChromeUA`.  `random_id`
stands for the `random.randint(1, 999999)` suffix used when no account id is
supplied.  The cache is an association list (most recent binding first),
keyed by the lower-cased account id exactly as the source lower-cases before
the cache lookup. -/
def generate_user_agent (md5seed : String → Nat) (random_id : String)
    (cache : List (String × String)) (account_id : Option String) :
    String × List (String × String) :=
  let aid0 := if truthy account_id then account_id.getD "" else "random_" ++ random_id
  let aid := pyLower aid0
  match cache.lookup aid with
  | some ua => (ua, cache)
  | none =>
    let _seed := md5seed aid
    (fixedChromeUA, (aid, fixedChromeUA) :: cache)

/-- State carried by a freshly constructed `BrowserCaptchaService` as far as
the singleton claim needs it: the `db` handle captured by `__init__`,
together with the constants `__init__` sets.  The database handle type is
abstract. -/
structure BrowserCaptchaState (D : Type) where
  db : Option D
  headless : Bool
  website_key : String

/-- Embedding of `BrowserCaptchaService.__init__` for the fields above
(`browser_captcha_personal.py` lines 42-48, identically
`browser_captcha.py` lines 65-73). -/
def serviceInit {D : Type} (db : Option D) : BrowserCaptchaState D :=
  { db := db, headless := false, website_key := "6LdsFiUsAAAAAIjVDZcuLhaHiDn5nnHVXVRQGeMV" }

/-- Embedding of the classmethod `BrowserCaptchaService.get_instance`
(`browser_captcha_personal.py` lines 58-65 and, with the same body,
`browser_captcha.py` lines 79-87).  `inst` is the class variable
`cls._instance` before the call; the function returns the instance handed to
the caller together with the class variable after the call.  When the class
variable is unset the constructor runs with the supplied `db`; otherwise the
stored instance is returned untouched and the argument is ignored. -/
def get_instance {D : Type} (inst : Option (BrowserCaptchaState D)) (db : Option D) :
    BrowserCaptchaState D × Option (BrowserCaptchaState D) :=
  match inst with
  | none =>
    let created := serviceInit db
    (created, some created)
  | some existing => (existing, some existing)

/-- Embedding of the `for retry_attempt in range(max_retries)` loop shared by
the four video-generation methods of `FlowClient` (`flow_client.py` lines
427-493, 512-574, 592-650, 668-720).  `att idx` is the outcome of the
provider network call of attempt `idx` (token acquisition folded into the
attempt, as in the source where each iteration first re-acquires a token).
On success the loop returns; on an exception whose text is classified as a
captcha signal it records the error and continues; on any other exception it
re-raises at once; when the attempt budget is exhausted it raises the
recorded `last_error`.  The second component counts the network calls
actually made from the current iteration on. -/
def videoRetryGo {J : Type} (att : Nat → Except String J) :
    Nat → Nat → Option String → Except String J × Nat
  | 0, _, last_error => (Except.error (last_error.getD ""), 0)
  | remaining + 1, idx, _ =>
    match att idx with
    | Except.ok result => (Except.ok result, 1)
    | Except.error e =>
      if isCaptchaError e then
        let rest := videoRetryGo att remaining (idx + 1) (some e)
        (rest.1, rest.2 + 1)
      else (Except.error e, 1)

/-- Embedding of `FlowClient.generate_video_text` (`flow_client.py` lines
412-493).  `tokenAcq aid idx` is the `(token, cookies)` pair obtained by
`_get_recaptcha_token` on attempt `idx` for account id `aid` (with the
`or (None, None)` fallback already applied); `netCall idx tok` is the outcome
of `_make_request` for attempt `idx` when supplied that pair.  The account id
is derived once, before the loop, and every attempt reuses it. -/
def generate_video_text {J : Type}
    (tokenAcq : String → Nat → Option (String × Option String))
    (netCall : Nat → Option (String × Option String) → Except String J)
    (at_ : String) (account_id : Option String) : Except String J × Nat :=
  let final_account_id := fallbackAccountId account_id at_
  videoRetryGo (fun idx => netCall idx (tokenAcq final_account_id idx)) 3 0 none

/-- Embedding of `FlowClient.generate_video_start_end` (`flow_client.py`
lines 495-574): same derived account id, same three-attempt loop over
freshly acquired tokens. -/
def generate_video_start_end {J : Type}
    (tokenAcq : String → Nat → Option (String × Option String))
    (netCall : Nat → Option (String × Option String) → Except String J)
    (at_ : String) (account_id : Option String) : Except String J × Nat :=
  let final_account_id := fallbackAccountId account_id at_
  videoRetryGo (fun idx => netCall idx (tokenAcq final_account_id idx)) 3 0 none

/-- Embedding of `FlowClient.generate_video_start_image` (`flow_client.py`
lines 576-650): same derived account id, same three-attempt loop over
freshly acquired tokens. -/
def generate_video_start_image {J : Type}
    (tokenAcq : String → Nat → Option (String × Option String))
    (netCall : Nat → Option (String × Option String) → Except String J)
    (at_ : String) (account_id : Option String) : Except String J × Nat :=
  let final_account_id := fallbackAccountId account_id at_
  videoRetryGo (fun idx => netCall idx (tokenAcq final_account_id idx)) 3 0 none

/-- Embedding of `FlowClient.generate_video_reference_images`
(`flow_client.py` lines 652-720): same derived account id, same
three-attempt loop over freshly acquired tokens. -/
def generate_video_reference_images {J : Type}
    (tokenAcq : String → Nat → Option (String × Option String))
    (netCall : Nat → Option (String × Option String) → Except String J)
    (at_ : String) (account_id : Option String) : Except String J × Nat :=
  let final_account_id := fallbackAccountId account_id at_
  videoRetryGo (fun idx => netCall idx (tokenAcq final_account_id idx)) 3 0 none

/-- Embedding of `FlowClient.generate_image` (`flow_client.py` lines
360-408).  The method derives the fallback account id, acquires one captcha
token, performs one `_make_request` call and returns its result.  There is
no `try` block and no loop: any exception, captcha-classified or not,
propagates after this single attempt. -/
def generate_image {J : Type}
    (tokenAcq : String → Option (String × Option String))
    (netCall : Option (String × Option String) → Except String J)
    (at_ : String) (account_id : Option String) : Except String J :=
  let final_account_id := fallbackAccountId account_id at_
  netCall (tokenAcq final_account_id)

/-- Embedding of the token-and-cookie inspection at the end of
`BrowserCaptchaService.get_token` (`browser_captcha_personal.py` lines
471-487): `_execute_recaptcha_on_tab` and `_get_full_cookies` run inside a
`try` whose handler returns `(None, None)`; a truthy token is returned with
the cookies, a falsy one as `(None, None)`. -/
def run_token_on_tab (execOutcome : Except String (Option String))
    (cookiesOutcome : Except String (Option String)) :
    Except String (Option String × Option String) :=
  match execOutcome with
  | Except.error _ => Except.ok (none, none)
  | Except.ok tok =>
    match cookiesOutcome with
    | Except.error _ => Except.ok (none, none)
    | Except.ok cs =>
      match tok with
      | some t => if t != "" then Except.ok (some t, cs) else Except.ok (none, none)
      | none => Except.ok (none, none)

/-- Embedding of `BrowserCaptchaService.get_token`
(`browser_captcha_personal.py` lines 408-491).  `initOutcome` is the outcome
of `initialize_for_account`, which re-raises browser-startup failures (lines
233-235) and is called at line 427 outside any `try`, so its exception
propagates out of `get_token`.  `needCreate` says whether the project has no
resident tab yet; `navCreate` is the first `_navigate_resident_tab` call,
whose failure or `False` result is converted to `(None, None)` (lines
452-461).  `tabPresent` says whether a usable resident tab exists on the
reuse path; `stableNav` is the ignored boolean result of the stability
re-navigation at line 469 (`_navigate_resident_tab` catches its own
exceptions and returns a boolean).  `execOutcome` and `cookiesOutcome` feed
the final token extraction. -/
def bc_get_token (initOutcome : Except String Unit)
    (needCreate : Bool) (navCreate : Except String Bool)
    (tabPresent : Bool) (stableNav : Bool)
    (execOutcome : Except String (Option String))
    (cookiesOutcome : Except String (Option String)) :
    Except String (Option String × Option String) :=
  match initOutcome with
  | Except.error e => Except.error e
  | Except.ok _ =>
    if needCreate then
      match navCreate with
      | Except.error _ => Except.ok (none, none)
      | Except.ok false => Except.ok (none, none)
      | Except.ok true => run_token_on_tab execOutcome cookiesOutcome
    else
      if tabPresent then
        let _stable := stableNav
        run_token_on_tab execOutcome cookiesOutcome
      else Except.ok (none, none)

/-- Embedding of `FlowClient._get_recaptcha_token` (`flow_client.py` lines
744-803).  The whole body sits inside a `try` whose handler returns `None`.
`dbSt` is the database lookup for the current session token, itself guarded
by an inner `try` that keeps the falsy initial value on failure; `instOutcome`
is the `BrowserCaptchaService.get_instance` call; `bcCall st` is the
`browser_service.get_token` call with the resolved session token, which may
itself raise (for example out of `initialize_for_account`).  A result with a
truthy token is returned as the pair, anything else becomes `None`. -/
def get_recaptcha_token (dbSt : Except String (Option String))
    (instOutcome : Except String Unit)
    (bcCall : Option String → Except String (Option String × Option String))
    (st : Option String) : Option (String × Option String) :=
  let current_st := if truthy st then st else
    match dbSt with
    | Except.ok s => s
    | Except.error _ => st
  match instOutcome with
  | Except.error _ => none
  | Except.ok _ =>
    match bcCall current_st with
    | Except.error _ => none
    | Except.ok (tok, cookies) =>
      match tok with
      | some t => if t != "" then some (t, cookies) else none
      | none => none

/-- Embedding of one iteration of `auto_unban_task` (`main.py` lines
159-166): the body runs `token_manager.auto_unban_429_tokens()` inside a
`try` whose handler prints the error; the iteration itself never raises.
The returned value is the printed error line, if any. -/
def auto_unban_iteration (unban : Except String Unit) : Except String (Option String) :=
  match unban with
  | Except.ok _ => Except.ok none
  | Except.error e => Except.ok (some ("[ERROR] Auto-unban task error: " ++ e))

/-- Account record as the periodic refresh loop in `main.py` reads it: the
numeric id, the email used in the warning line, and the `is_active` flag. -/
structure TokenRecord where
  id : Nat
  email : String
  is_active : Bool

/-- Embedding of the per-account refresh loop inside
`periodic_credit_refresh_task` (`main.py` lines 196-202): every active token
gets a `refresh_credits` attempt inside its own `try`, so one failure is
turned into a warning line and the sweep continues with the next token.
Returns the ids attempted (in order) and the warnings printed. -/
def refresh_sweep : List TokenRecord → (Nat → Except String Unit) → List Nat × List String
  | [], _ => ([], [])
  | t :: ts, refresh_credits =>
    let rest := refresh_sweep ts refresh_credits
    if t.is_active then
      match refresh_credits t.id with
      | Except.ok _ => (t.id :: rest.1, rest.2)
      | Except.error e =>
        (t.id :: rest.1,
          ("[WARN] Failed to refresh credits for " ++ t.email ++ ": " ++ e) :: rest.2)
    else rest

/-- Embedding of one iteration of `periodic_credit_refresh_task` (`main.py`
lines 171-208).  The whole body sits inside an outer `try` whose handler
prints the error and sleeps, so the loop survives; `keep_alive` (absent when
no browser service is attached) and `proactive` each have their own inner
`try` that downgrades a failure to a warning; `tokens` is the
`get_all_tokens` call, whose failure is the only way to reach the outer
handler before the sweep; `refresh_credits` feeds the per-account sweep.
The `Except.error` result of this function would mean the iteration
propagated an exception to the scheduler loop. -/
def periodic_refresh_iteration (keep_alive : Option (Except String Unit))
    (proactive : Except String Unit)
    (tokens : Except String (List TokenRecord))
    (refresh_credits : Nat → Except String Unit) :
    Except String (List Nat × List String) :=
  let w1 : List String :=
    match keep_alive with
    | some (Except.error e) => ["[WARN] Keep-alive failed: " ++ e]
    | _ => []
  let w2 : List String :=
    match proactive with
    | Except.error e => ["[WARN] Proactive ST refresh failed: " ++ e]
    | Except.ok _ => []
  match tokens with
  | Except.error e =>
    Except.ok ([], w1 ++ w2 ++ ["[ERROR] Periodic background task error: " ++ e])
  | Except.ok ts =>
    let sweep := refresh_sweep ts refresh_credits
    Except.ok (sweep.1, w1 ++ w2 ++ sweep.2)

/-- Operations on one account slot counter of the concurrency controller. -/
inductive SlotOp where
  | acquire
  | release
deriving DecidableEq

/-- Observable state of one account of the concurrency controller: the
in-flight counter together with how many acquisitions succeeded and how many
release calls were made so far. -/
structure SlotState where
  in_flight : Int
  succ_acquires : Nat
  releases : Nat
deriving DecidableEq

/-- Modelled from the spec: one step of the per-account concurrency counter.
The file `src/src/services/concurrency_manager.py` is not among the provided
sources (only `main.py` imports it), so this follows the specification text:
`try_acquire` atomically checks `in_flight < ceiling`, increments on success
and otherwise leaves the counter unchanged returning false; `release`
decrements the counter and never goes below zero. -/
def slotStep (ceiling : Nat) (st : SlotState) : SlotOp → SlotState
  | SlotOp.acquire =>
    if st.in_flight < (ceiling : Int) then
      { st with in_flight := st.in_flight + 1, succ_acquires := st.succ_acquires + 1 }
    else st
  | SlotOp.release =>
    if 0 < st.in_flight then
      { st with in_flight := st.in_flight - 1, releases := st.releases + 1 }
    else { st with releases := st.releases + 1 }

/-- Modelled from the spec: `initialize` seeds the in-flight counter of every
account at zero. -/
def initSlotState : SlotState :=
  { in_flight := 0, succ_acquires := 0, releases := 0 }

/-- Modelled from the spec: the state of one account slot counter after a
sequence of `try_acquire` and `release` calls, starting from the seeded
state. -/
def runSlotOps (ceiling : Nat) (ops : List SlotOp) : SlotState :=
  ops.foldl (slotStep ceiling) initSlotState

/-- Paired accounting, stated over observation points: along every prefix of
the call sequence the number of `release` calls stays at or below the number
of successful acquisitions. -/
def balancedPrefixes (ceiling : Nat) (ops : List SlotOp) : Bool :=
  (List.range (ops.length + 1)).all fun n =>
    decide ((runSlotOps ceiling (ops.take n)).releases
      ≤ (runSlotOps ceiling (ops.take n)).succ_acquires)

/-- Unfolding equation for one iteration of the retry loop. -/
theorem videoRetryGo_succ {J : Type} (att : Nat → Except String J) (k idx : Nat)
    (le : Option String) :
    videoRetryGo att (k + 1) idx le =
      match att idx with
      | Except.ok result => (Except.ok result, 1)
      | Except.error e =>
        if isCaptchaError e then
          ((videoRetryGo att k (idx + 1) (some e)).1,
            (videoRetryGo att k (idx + 1) (some e)).2 + 1)
        else (Except.error e, 1) := rfl

/-- The retry loop never makes more network calls than it has iterations
left. -/
theorem videoRetryGo_count_le {J : Type} (att : Nat → Except String J) :
    ∀ (k idx : Nat) (le : Option String), (videoRetryGo att k idx le).2 ≤ k := by
  intro k
  induction k with
  | zero => intro idx le; simp [videoRetryGo]
  | succ k ih =>
    intro idx le
    rw [videoRetryGo_succ]
    cases h : att idx with
    | ok result => simp
    | error e =>
      by_cases hc : isCaptchaError e = true
      · simpa [hc] using Nat.succ_le_succ (ih (idx + 1) (some e))
      · simp [hc]

/-- When the three remaining attempts all fail with captcha-classified
errors, the loop makes exactly three calls and re-raises the last error. -/
theorem videoRetryGo_three_captcha {J : Type} (att : Nat → Except String J)
    (e0 e1 e2 : String)
    (h0 : att 0 = Except.error e0) (hc0 : isCaptchaError e0 = true)
    (h1 : att 1 = Except.error e1) (hc1 : isCaptchaError e1 = true)
    (h2 : att 2 = Except.error e2) (hc2 : isCaptchaError e2 = true) :
    videoRetryGo att 3 0 none = (Except.error e2, 3) := by
  rw [show (3 : Nat) = 2 + 1 from rfl, videoRetryGo_succ, h0]
  simp only [hc0, if_true]
  rw [show (2 : Nat) = 1 + 1 from rfl, videoRetryGo_succ]
  simp only [show (0 : Nat) + 1 = 1 from rfl, h1, hc1, if_true]
  rw [show (1 : Nat) = 0 + 1 from rfl, videoRetryGo_succ]
  simp only [show (1 : Nat) + 1 = 2 from rfl, h2, hc2, if_true]
  simp [videoRetryGo]

/-- A first attempt failing with a non-captcha error is re-raised at once:
one network call, no retry. -/
theorem videoRetryGo_first_other {J : Type} (att : Nat → Except String J)
    (k : Nat) (idx : Nat) (le : Option String) (e : String)
    (h : att idx = Except.error e) (hc : isCaptchaError e = false) :
    videoRetryGo att (k + 1) idx le = (Except.error e, 1) := by
  rw [videoRetryGo_succ, h]
  simp [hc]

/-- A captcha-classified failure followed by a successful attempt yields the
success after exactly two calls: the captcha class does trigger a retry. -/
theorem videoRetryGo_captcha_then_ok {J : Type} (att : Nat → Except String J)
    (e0 : String) (r : J)
    (h0 : att 0 = Except.error e0) (hc0 : isCaptchaError e0 = true)
    (h1 : att 1 = Except.ok r) :
    videoRetryGo att 3 0 none = (Except.ok r, 2) := by
  rw [show (3 : Nat) = 2 + 1 from rfl, videoRetryGo_succ, h0]
  simp only [hc0, if_true]
  rw [show (2 : Nat) = 1 + 1 from rfl, videoRetryGo_succ]
  simp only [show (0 : Nat) + 1 = 1 from rfl, h1]

/-- C1: for every video-generation call (`generate_video_text` and its
start-end, start-image, and reference-images variants), at most 3 total
attempts of the provider network call are made; if every attempt fails with
a captcha-classified error, the last such error is raised as a terminal
failure after exactly 3 attempts. -/
theorem video_generation_retry_bound {J : Type}
    (tokenAcq : String → Nat → Option (String × Option String))
    (netCall : Nat → Option (String × Option String) → Except String J)
    (at_ : String) (account_id : Option String) :
    ((generate_video_text tokenAcq netCall at_ account_id).2 ≤ 3
      ∧ (generate_video_start_end tokenAcq netCall at_ account_id).2 ≤ 3
      ∧ (generate_video_start_image tokenAcq netCall at_ account_id).2 ≤ 3
      ∧ (generate_video_reference_images tokenAcq netCall at_ account_id).2 ≤ 3)
    ∧ ∀ e0 e1 e2 : String,
        netCall 0 (tokenAcq (fallbackAccountId account_id at_) 0) = Except.error e0 →
        isCaptchaError e0 = true →
        netCall 1 (tokenAcq (fallbackAccountId account_id at_) 1) = Except.error e1 →
        isCaptchaError e1 = true →
        netCall 2 (tokenAcq (fallbackAccountId account_id at_) 2) = Except.error e2 →
        isCaptchaError e2 = true →
        generate_video_text tokenAcq netCall at_ account_id = (Except.error e2, 3)
        ∧ generate_video_start_end tokenAcq netCall at_ account_id = (Except.error e2, 3)
        ∧ generate_video_start_image tokenAcq netCall at_ account_id = (Except.error e2, 3)
        ∧ generate_video_reference_images tokenAcq netCall at_ account_id
            = (Except.error e2, 3) := by
  constructor
  · exact ⟨videoRetryGo_count_le _ 3 0 none, videoRetryGo_count_le _ 3 0 none,
      videoRetryGo_count_le _ 3 0 none, videoRetryGo_count_le _ 3 0 none⟩
  · intro e0 e1 e2 h0 c0 h1 c1 h2 c2
    have h := videoRetryGo_three_captcha
      (fun idx => netCall idx (tokenAcq (fallbackAccountId account_id at_) idx))
      e0 e1 e2 h0 c0 h1 c1 h2 c2
    exact ⟨h, h, h, h⟩

/-- Witness for `video_generation_retry_bound`: a provider that fails every
attempt with a 403-classified error makes the text-to-video call fail
terminally with that error after exactly three attempts. -/
theorem video_generation_retry_bound_witness :
    generate_video_text (J := Nat) (fun _ _ => some ("tok", none))
      (fun _ _ => Except.error "Flow API request failed: 403 - blocked") "bearer" none
      = (Except.error "Flow API request failed: 403 - blocked", 3) :=
  ((video_generation_retry_bound (J := Nat) (fun _ _ => some ("tok", none))
      (fun _ _ => Except.error "Flow API request failed: 403 - blocked") "bearer" none).2
    "Flow API request failed: 403 - blocked" "Flow API request failed: 403 - blocked"
    "Flow API request failed: 403 - blocked"
    rfl (by decide) rfl (by decide) rfl (by decide)).1

/-- C2: only captcha-classified failures trigger a retry: a first attempt
failing with any other error is raised immediately after that single
attempt in all four video-generation methods, and a captcha-classified
first failure followed by a non-captcha second failure raises the second
error after exactly two attempts. -/
theorem non_captcha_error_no_retry {J : Type}
    (tokenAcq : String → Nat → Option (String × Option String))
    (netCall : Nat → Option (String × Option String) → Except String J)
    (at_ : String) (account_id : Option String) :
    (∀ e : String,
      netCall 0 (tokenAcq (fallbackAccountId account_id at_) 0) = Except.error e →
      isCaptchaError e = false →
      generate_video_text tokenAcq netCall at_ account_id = (Except.error e, 1)
      ∧ generate_video_start_end tokenAcq netCall at_ account_id = (Except.error e, 1)
      ∧ generate_video_start_image tokenAcq netCall at_ account_id = (Except.error e, 1)
      ∧ generate_video_reference_images tokenAcq netCall at_ account_id = (Except.error e, 1))
    ∧ ∀ e0 e1 : String,
      netCall 0 (tokenAcq (fallbackAccountId account_id at_) 0) = Except.error e0 →
      isCaptchaError e0 = true →
      netCall 1 (tokenAcq (fallbackAccountId account_id at_) 1) = Except.error e1 →
      isCaptchaError e1 = false →
      generate_video_text tokenAcq netCall at_ account_id = (Except.error e1, 2) := by
  constructor
  · intro e h hc
    have h1 := videoRetryGo_first_other
      (fun idx => netCall idx (tokenAcq (fallbackAccountId account_id at_) idx))
      2 0 none e h hc
    exact ⟨h1, h1, h1, h1⟩
  · intro e0 e1 h0 c0 h1 c1
    show videoRetryGo
      (fun idx => netCall idx (tokenAcq (fallbackAccountId account_id at_) idx))
      3 0 none = (Except.error e1, 2)
    rw [show (3 : Nat) = 2 + 1 from rfl, videoRetryGo_succ, h0]
    simp only [c0, if_true]
    have hstep := videoRetryGo_first_other
      (fun idx => netCall idx (tokenAcq (fallbackAccountId account_id at_) idx))
      1 (0 + 1) (some e0) e1 h1 c1
    rw [show (2 : Nat) = 1 + 1 from rfl, hstep]

/-- Witness for `non_captcha_error_no_retry`: a 500-class failure on the
first attempt is surfaced at once with a single network call. -/
theorem non_captcha_error_no_retry_witness :
    generate_video_text (J := Nat) (fun _ _ => some ("tok", none))
      (fun _ _ => Except.error "Flow API request failed: 500 - server error") "bearer" none
      = (Except.error "Flow API request failed: 500 - server error", 1) :=
  (((non_captcha_error_no_retry (J := Nat) (fun _ _ => some ("tok", none))
      (fun _ _ => Except.error "Flow API request failed: 500 - server error")
      "bearer" none).1
    "Flow API request failed: 500 - server error" rfl (by decide))).1

/-- C3 counterexample: the claim includes image generation among the calls
that retry captcha rejections up to 3 attempts, but `generate_image` has no
retry loop.  On a captcha-classified failure of its single network call the
error is surfaced immediately, while the structurally identical failure
pattern given to `generate_video_text` (first attempt rejected, second
succeeds) is retried and succeeds after two attempts. -/
theorem image_captcha_retry_cex :
    generate_image (J := Nat) (fun _ => some ("tok", none))
      (fun _ => Except.error "Flow API request failed: 403 - recaptcha failed")
      "bearer-token" none
      = Except.error "Flow API request failed: 403 - recaptcha failed"
    ∧ isCaptchaError "Flow API request failed: 403 - recaptcha failed" = true
    ∧ generate_video_text (J := Nat) (fun _ _ => some ("tok", none))
        (fun idx _ => if idx = 0
          then Except.error "Flow API request failed: 403 - recaptcha failed"
          else Except.ok 7)
        "bearer-token" none
      = (Except.ok 7, 2) := by
  exact ⟨rfl, by decide, by rfl⟩

/-- C3 as amended: only the video-generation methods retry captcha-classified
rejections (up to 3 attempts, re-acquiring a fresh captcha token for the
attempt index while keeping the account id derived once before the loop),
whereas `generate_image` performs exactly one network call and surfaces any
failure of it, captcha-classified or not, without retrying. -/
theorem captcha_retry_video_only {J : Type}
    (tokenAcqI : String → Option (String × Option String))
    (netCallI : Option (String × Option String) → Except String J)
    (tokenAcqV : String → Nat → Option (String × Option String))
    (netCallV : Nat → Option (String × Option String) → Except String J)
    (at_ : String) (account_id : Option String) :
    (∀ e : String,
        netCallI (tokenAcqI (fallbackAccountId account_id at_)) = Except.error e →
        generate_image tokenAcqI netCallI at_ account_id = Except.error e)
    ∧ ∀ (e0 : String) (r : J),
        netCallV 0 (tokenAcqV (fallbackAccountId account_id at_) 0) = Except.error e0 →
        isCaptchaError e0 = true →
        netCallV 1 (tokenAcqV (fallbackAccountId account_id at_) 1) = Except.ok r →
        generate_video_text tokenAcqV netCallV at_ account_id = (Except.ok r, 2)
        ∧ generate_video_start_end tokenAcqV netCallV at_ account_id = (Except.ok r, 2)
        ∧ generate_video_start_image tokenAcqV netCallV at_ account_id = (Except.ok r, 2)
        ∧ generate_video_reference_images tokenAcqV netCallV at_ account_id
            = (Except.ok r, 2) := by
  constructor
  · intro e h; exact h
  · intro e0 r h0 c0 h1
    have h := videoRetryGo_captcha_then_ok
      (fun idx => netCallV idx (tokenAcqV (fallbackAccountId account_id at_) idx))
      e0 r h0 c0 h1
    exact ⟨h, h, h, h⟩

/-- Witness for `captcha_retry_video_only`: a single 403-class failure makes
the image call fail outright, and the same failure on the first video
attempt is retried to success. -/
theorem captcha_retry_video_only_witness :
    generate_image (J := Nat) (fun _ => some ("tok", none))
      (fun _ => Except.error "Flow API request failed: 403 - refused")
      "bearer" none
      = Except.error "Flow API request failed: 403 - refused"
    ∧ generate_video_text (J := Nat) (fun _ _ => some ("tok", none))
        (fun idx _ => if idx = 0
          then Except.error "Flow API request failed: 403 - refused"
          else Except.ok 9)
        "bearer" none
      = (Except.ok 9, 2) := by
  have h := captcha_retry_video_only (J := Nat) (fun _ => some ("tok", none))
    (fun _ => Except.error "Flow API request failed: 403 - refused")
    (fun _ _ => some ("tok", none))
    (fun idx _ => if idx = 0
      then Except.error "Flow API request failed: 403 - refused"
      else Except.ok 9)
    "bearer" none
  exact ⟨h.1 "Flow API request failed: 403 - refused" rfl,
    (h.2 "Flow API request failed: 403 - refused" 9 rfl (by decide) rfl).1⟩

/-- Helper for substring claims: exhibiting the surrounding pieces of the
character list proves the Python-style containment test true. -/
theorem strContains_intro (haystack needle pre post : String)
    (h : haystack.data = pre.data ++ needle.data ++ post.data) :
    strContains haystack needle = true := by
  unfold strContains
  rw [decide_eq_true_eq]
  exact ⟨pre.data, post.data, h.symm⟩

/-- C6: `_make_request` returns the parsed JSON response body if and only if
the HTTP status code lies in `[200, 300)`; every non-2xx response raises an
error whose message (the inner status-check message re-wrapped once by the
outer handler) contains the status code and the response text; the single
transport call is never repeated. -/
theorem make_request_status_contract {J : Type} (resp : HttpResponse J) :
    ((∃ j : J, make_request (Except.ok resp) = Except.ok j)
      ↔ (200 ≤ resp.status_code ∧ resp.status_code < 300))
    ∧ (200 ≤ resp.status_code ∧ resp.status_code < 300 →
        make_request (Except.ok resp) = Except.ok resp.body)
    ∧ (¬(200 ≤ resp.status_code ∧ resp.status_code < 300) →
        make_request (Except.ok resp)
          = Except.error ("Flow API request failed: "
              ++ ("Flow API request failed: " ++ toString resp.status_code
                ++ " - " ++ resp.text))
        ∧ strContains ("Flow API request failed: "
              ++ ("Flow API request failed: " ++ toString resp.status_code
                ++ " - " ++ resp.text)) (toString resp.status_code) = true
        ∧ strContains ("Flow API request failed: "
              ++ ("Flow API request failed: " ++ toString resp.status_code
                ++ " - " ++ resp.text)) resp.text = true) := by
  by_cases h : 200 ≤ resp.status_code ∧ resp.status_code < 300
  · refine ⟨⟨fun _ => h, fun _ => ⟨resp.body, ?_⟩⟩, fun _ => ?_, fun hn => absurd h hn⟩
    · simp [make_request, makeRequestInner, h, Bind.bind, Except.bind]
    · simp [make_request, makeRequestInner, h, Bind.bind, Except.bind]
  · refine ⟨⟨fun ⟨j, hj⟩ => ?_, fun hh => absurd hh h⟩, fun hh => absurd hh h, fun _ => ?_⟩
    · rw [show make_request (Except.ok resp)
          = Except.error ("Flow API request failed: "
            ++ ("Flow API request failed: " ++ toString resp.status_code
              ++ " - " ++ resp.text)) by
          simp [make_request, makeRequestInner, h, Bind.bind, Except.bind]] at hj
      exact absurd hj (by simp)
    · refine ⟨by simp [make_request, makeRequestInner, h, Bind.bind, Except.bind], ?_, ?_⟩
      · exact strContains_intro _ _
          ("Flow API request failed: " ++ "Flow API request failed: ")
          (" - " ++ resp.text) (by simp [String.data_append])
      · exact strContains_intro _ _
          ("Flow API request failed: " ++ ("Flow API request failed: "
            ++ toString resp.status_code ++ " - ")) ""
          (by simp [String.data_append])

/-- Witness for `make_request_status_contract`: a concrete 404 response is
rejected with a message containing the status and body, and a concrete 200
response returns its parsed body. -/
theorem make_request_status_contract_witness :
    make_request (Except.ok (⟨200, "ok", 5⟩ : HttpResponse Nat)) = Except.ok 5
    ∧ make_request (Except.ok (⟨404, "not found", 5⟩ : HttpResponse Nat))
        = Except.error "Flow API request failed: Flow API request failed: 404 - not found"
    ∧ strContains "Flow API request failed: Flow API request failed: 404 - not found"
        "404" = true := by
  have h200 := (make_request_status_contract (⟨200, "ok", 5⟩ : HttpResponse Nat)).2.1
    (by decide)
  have h404 := (make_request_status_contract (⟨404, "not found", 5⟩ : HttpResponse Nat)).2.2
    (by decide)
  exact ⟨h200, h404.1, by decide⟩

/-- C8: with no truthy explicit account identifier, `_make_request` derives
the account id as the first 16 characters of the session token when that is
present and non-empty, otherwise the first 16 characters of the bearer
token; `generate_image` derives it as the first 16 characters of the bearer
token when present, otherwise the literal `default`. -/
theorem token_prefix_account_id (account_id st_token at_token : Option String)
    (at_ : String) :
    (∀ s : String, truthy account_id = false → st_token = some s → s ≠ "" →
      makeRequestAccountId account_id st_token at_token = some (s.take 16))
    ∧ (∀ a : String, truthy account_id = false → truthy st_token = false →
        at_token = some a → a ≠ "" →
        makeRequestAccountId account_id st_token at_token = some (a.take 16))
    ∧ (truthy account_id = false → at_ ≠ "" →
        fallbackAccountId account_id at_ = at_.take 16)
    ∧ (truthy account_id = false → at_ = "" →
        fallbackAccountId account_id at_ = "default") := by
  refine ⟨?_, ?_, ?_, ?_⟩
  · intro s hacc hst hs
    subst hst
    simp only [makeRequestAccountId, hacc]
    simp [truthy, hs]
  · intro a hacc hst hat ha
    subst hat
    simp only [makeRequestAccountId, hacc, hst]
    simp [truthy, ha]
  · intro hacc hat
    simp only [fallbackAccountId, hacc]
    simp [hat]
  · intro hacc hat
    subst hat
    simp only [fallbackAccountId, hacc]
    simp

/-- Witness for `token_prefix_account_id`: concrete tokens produce the
16-character prefixes, and an absent bearer token produces `default`. -/
theorem token_prefix_account_id_witness :
    makeRequestAccountId none (some "session-token-0123456789") none
      = some "session-token-01"
    ∧ makeRequestAccountId none none (some "bearer-token-0123456789")
      = some "bearer-token-012"
    ∧ fallbackAccountId none "bearer-token-0123456789" = "bearer-token-012"
    ∧ fallbackAccountId none "" = "default" := by
  refine ⟨?_, ?_, ?_, ?_⟩
  · exact (token_prefix_account_id none (some "session-token-0123456789") none "").1
      "session-token-0123456789" rfl rfl (by decide)
  · exact (token_prefix_account_id none none (some "bearer-token-0123456789") "").2.1
      "bearer-token-0123456789" rfl rfl rfl (by decide)
  · exact (token_prefix_account_id none none none "bearer-token-0123456789").2.2.1
      rfl (by decide)
  · exact (token_prefix_account_id none none none "").2.2.2 rfl rfl

/-- C9: `BrowserCaptchaService.get_instance` is a singleton accessor: the
first call (class variable unset) constructs the instance from the supplied
`db` and stores it, and every call with the class variable set returns the
stored instance unchanged, whatever `db` argument is passed. -/
theorem get_instance_singleton {D : Type} (db db2 : Option D)
    (inst : BrowserCaptchaState D) :
    get_instance (D := D) none db = (serviceInit db, some (serviceInit db))
    ∧ get_instance (some inst) db2 = (inst, some inst) :=
  ⟨rfl, rfl⟩

/-- C10: `_generate_user_agent` with no attached browser service is
deterministic per account: the md5-derived seed never influences the result,
a cache miss returns the fixed Chrome/110 string for every account id, and
two calls whose account ids differ only in letter case return the identical
cached string. -/
theorem generate_user_agent_deterministic (f g : String → Nat) (rid : String)
    (cache : List (String × String)) (id1 id2 : String) :
    generate_user_agent f rid cache (some id1) = generate_user_agent g rid cache (some id1)
    ∧ (id1 ≠ "" → cache.lookup (pyLower id1) = none →
        (generate_user_agent f rid cache (some id1)).1 = fixedChromeUA)
    ∧ (id1 ≠ "" → id2 ≠ "" → pyLower id1 = pyLower id2 →
        (generate_user_agent f rid
            (generate_user_agent f rid cache (some id1)).2 (some id2)).1
          = (generate_user_agent f rid cache (some id1)).1) := by
  refine ⟨rfl, ?_, ?_⟩
  · intro h1 hmiss
    simp [generate_user_agent, truthy, h1, hmiss]
  · intro h1 h2 h12
    by_cases hmiss : cache.lookup (pyLower id1) = none
    · simp [generate_user_agent, truthy, h1, h2, hmiss, ← h12, List.lookup]
    · obtain ⟨ua, hua⟩ := Option.ne_none_iff_exists.mp hmiss
      simp [generate_user_agent, truthy, h1, h2, ← hua, ← h12]

/-- Witness for `generate_user_agent_deterministic`: on an empty cache the
account id `User@Example` yields the fixed Chrome/110 string, and a second
call with the same id in different case returns the identical cached
string. -/
theorem generate_user_agent_deterministic_witness :
    (generate_user_agent (fun s => s.length) "1" [] (some "User@Example")).1
      = fixedChromeUA
    ∧ (generate_user_agent (fun s => s.length) "1"
        (generate_user_agent (fun s => s.length) "1" [] (some "User@Example")).2
        (some "user@example")).1
      = (generate_user_agent (fun s => s.length) "1" [] (some "User@Example")).1 := by
  have h := generate_user_agent_deterministic (fun s => s.length) (fun s => s.length)
    "1" [] "User@Example" "user@example"
  exact ⟨h.2.1 (by decide) rfl, h.2.2 (by decide) (by decide) (by decide)⟩

/-- C5 counterexample: `BrowserCaptchaService.get_token` does not catch every
internal failure.  Its call to `initialize_for_account` sits outside any
`try`, and that method re-raises browser-startup failures, so a concrete
browser error propagates out of `get_token` as an exception instead of
becoming the `(None, None)` result the claim promises. -/
theorem bc_get_token_raises_cex :
    bc_get_token (Except.error "browser start failed") true (Except.ok true) false false
      (Except.ok (some "tok")) (Except.ok none)
      = Except.error "browser start failed" := rfl

/-- Shape of the final token inspection: it always returns normally, and a
returned token is non-empty. -/
theorem run_token_on_tab_shape (execOutcome cookiesOutcome : Except String (Option String)) :
    run_token_on_tab execOutcome cookiesOutcome = Except.ok (none, none)
    ∨ ∃ t c, run_token_on_tab execOutcome cookiesOutcome = Except.ok (some t, c)
        ∧ t ≠ "" := by
  unfold run_token_on_tab
  cases execOutcome with
  | error e => exact Or.inl rfl
  | ok tok =>
    cases cookiesOutcome with
    | error e => exact Or.inl rfl
    | ok cs =>
      cases tok with
      | none => exact Or.inl rfl
      | some t =>
        by_cases ht : t = ""
        · subst ht; exact Or.inl (by simp)
        · exact Or.inr ⟨t, cs, by simp [ht], ht⟩

/-- C5 as amended: `FlowClient._get_recaptcha_token` never propagates an
exception — for every input it evaluates to a pair with a non-empty token or
to `None` — and `BrowserCaptchaService.get_token` likewise converts every
navigation, execution, cookie or database failure to a non-empty-token pair
or `(None, None)`; the one exception is a browser-initialization failure,
which `get_token` propagates unchanged (it is then caught by the `try` of
`_get_recaptcha_token`). -/
theorem recaptcha_token_result_shape
    (dbSt : Except String (Option String)) (instOutcome : Except String Unit)
    (bcCall : Option String → Except String (Option String × Option String))
    (st : Option String)
    (needCreate : Bool) (navCreate : Except String Bool)
    (tabPresent stableNav : Bool)
    (execOutcome cookiesOutcome : Except String (Option String)) :
    (get_recaptcha_token dbSt instOutcome bcCall st = none
      ∨ ∃ t c, get_recaptcha_token dbSt instOutcome bcCall st = some (t, c) ∧ t ≠ "")
    ∧ (bc_get_token (Except.ok ()) needCreate navCreate tabPresent stableNav
          execOutcome cookiesOutcome = Except.ok (none, none)
      ∨ ∃ t c, bc_get_token (Except.ok ()) needCreate navCreate tabPresent stableNav
          execOutcome cookiesOutcome = Except.ok (some t, c) ∧ t ≠ "")
    ∧ ∀ e : String,
        bc_get_token (Except.error e) needCreate navCreate tabPresent stableNav
          execOutcome cookiesOutcome = Except.error e := by
  refine ⟨?_, ?_, fun e => rfl⟩
  · unfold get_recaptcha_token
    cases instOutcome with
    | error e => exact Or.inl rfl
    | ok u =>
      cases hbc : bcCall (if truthy st then st else
        match dbSt with
        | Except.ok s => s
        | Except.error _ => st) with
      | error e => left; simp [hbc]
      | ok pr =>
        obtain ⟨tok, cookies⟩ := pr
        cases tok with
        | none => left; simp [hbc]
        | some t =>
          by_cases ht : t = ""
          · subst ht; left; simp [hbc]
          · exact Or.inr ⟨t, cookies, by simp [hbc, ht], ht⟩
  · unfold bc_get_token
    cases needCreate with
    | true =>
      cases navCreate with
      | error e => exact Or.inl rfl
      | ok b =>
        cases b with
        | false => exact Or.inl rfl
        | true => exact run_token_on_tab_shape execOutcome cookiesOutcome
    | false =>
      cases tabPresent with
      | true => exact run_token_on_tab_shape execOutcome cookiesOutcome
      | false => exact Or.inl rfl

/-- Account ids attempted by the per-account credit refresh sweep: every
active token, in list order. -/
def activeIds : List TokenRecord → List Nat
  | [] => []
  | t :: ts => if t.is_active then t.id :: activeIds ts else activeIds ts

/-- The sweep attempts exactly the active tokens, whatever each individual
refresh call does. -/
theorem refresh_sweep_attempts (f : Nat → Except String Unit) :
    ∀ ts : List TokenRecord, (refresh_sweep ts f).1 = activeIds ts := by
  intro ts
  induction ts with
  | nil => rfl
  | cons t ts ih =>
    by_cases ha : t.is_active
    · cases hf : f t.id <;> simp [refresh_sweep, activeIds, ha, hf, ih]
    · simp [refresh_sweep, activeIds, ha, ih]

/-- C7: the background auto-unban and periodic credit-refresh loop bodies
never propagate an exception from an iteration — every failure of
`auto_unban_429_tokens`, `keep_alive_all_tabs`, `proactive_refresh_all_st`,
`get_all_tokens` or a per-account `refresh_credits` call is caught inside
the loop — and when the token list is obtained, every active account gets
its refresh attempt regardless of the other accounts' failures. -/
theorem background_tasks_contained
    (unban : Except String Unit) (keep_alive : Option (Except String Unit))
    (proactive : Except String Unit) (tokens : Except String (List TokenRecord))
    (refresh_credits : Nat → Except String Unit) :
    (∃ log, auto_unban_iteration unban = Except.ok log)
    ∧ (∃ res, periodic_refresh_iteration keep_alive proactive tokens refresh_credits
        = Except.ok res)
    ∧ ∀ ts : List TokenRecord, tokens = Except.ok ts →
        ∃ warnings, periodic_refresh_iteration keep_alive proactive tokens refresh_credits
          = Except.ok (activeIds ts, warnings) := by
  refine ⟨?_, ?_, ?_⟩
  · cases unban with
    | ok u => exact ⟨none, rfl⟩
    | error e => exact ⟨some ("[ERROR] Auto-unban task error: " ++ e), rfl⟩
  · cases tokens with
    | error e => exact ⟨_, rfl⟩
    | ok ts => exact ⟨_, rfl⟩
  · intro ts hts
    subst hts
    refine ⟨(match keep_alive with
      | some (Except.error e) => ["[WARN] Keep-alive failed: " ++ e]
      | _ => []) ++ (match proactive with
      | Except.error e => ["[WARN] Proactive ST refresh failed: " ++ e]
      | Except.ok _ => []) ++ (refresh_sweep ts refresh_credits).2, ?_⟩
    simp [periodic_refresh_iteration, refresh_sweep_attempts]

/-- Witness for `background_tasks_contained`: a failing unban sweep is
downgraded to a log line, and with three tokens (the middle one inactive)
and a refresh function that fails on the first account, both active
accounts are still attempted. -/
theorem background_tasks_contained_witness :
    (∃ log, auto_unban_iteration (Except.error "db locked") = Except.ok log)
    ∧ ∃ warnings, periodic_refresh_iteration none (Except.ok ())
        (Except.ok [⟨1, "a@x", true⟩, ⟨2, "b@x", false⟩, ⟨3, "c@x", true⟩])
        (fun n => if n = 1 then Except.error "boom" else Except.ok ())
        = Except.ok ([1, 3], warnings) := by
  have h := background_tasks_contained (Except.error "db locked") none (Except.ok ())
    (Except.ok [⟨1, "a@x", true⟩, ⟨2, "b@x", false⟩, ⟨3, "c@x", true⟩])
    (fun n => if n = 1 then Except.error "boom" else Except.ok ())
  exact ⟨h.1, h.2.2 _ rfl⟩

/-- One step keeps the counter inside `[0, ceiling]`. -/
theorem slotStep_range (ceiling : Nat) (st : SlotState) (op : SlotOp)
    (h0 : 0 ≤ st.in_flight) (h1 : st.in_flight ≤ (ceiling : Int)) :
    0 ≤ (slotStep ceiling st op).in_flight
    ∧ (slotStep ceiling st op).in_flight ≤ (ceiling : Int) := by
  cases op <;> simp only [slotStep] <;> split <;> (try simp) <;> omega

/-- Folding any call sequence from a state inside the range keeps the counter
inside the range. -/
theorem runSlotOps_range_aux (ceiling : Nat) :
    ∀ (ops : List SlotOp) (st : SlotState),
      0 ≤ st.in_flight → st.in_flight ≤ (ceiling : Int) →
      0 ≤ (ops.foldl (slotStep ceiling) st).in_flight
      ∧ (ops.foldl (slotStep ceiling) st).in_flight ≤ (ceiling : Int) := by
  intro ops
  induction ops with
  | nil => intro st h0 h1; exact ⟨h0, h1⟩
  | cons op ops ih =>
    intro st h0 h1
    have h := slotStep_range ceiling st op h0 h1
    simpa using ih (slotStep ceiling st op) h.1 h.2

/-- Under paired accounting (releases never outrun successful acquisitions
along any prefix), the counter equals successful acquisitions minus
releases. -/
theorem runSlotOps_balance_aux (ceiling : Nat) :
    ∀ (ops : List SlotOp) (st : SlotState),
      st.in_flight = (st.succ_acquires : Int) - (st.releases : Int) →
      (∀ n : Nat, ((ops.take n).foldl (slotStep ceiling) st).releases
        ≤ ((ops.take n).foldl (slotStep ceiling) st).succ_acquires) →
      (ops.foldl (slotStep ceiling) st).in_flight
        = ((ops.foldl (slotStep ceiling) st).succ_acquires : Int)
          - ((ops.foldl (slotStep ceiling) st).releases : Int) := by
  intro ops
  induction ops with
  | nil => intro st h _; simpa using h
  | cons op ops ih =>
    intro st h hbal
    have h1 := hbal 1
    simp only [List.take_succ_cons, List.take_zero, List.foldl_cons, List.foldl_nil] at h1
    have hstep : (slotStep ceiling st op).in_flight
        = ((slotStep ceiling st op).succ_acquires : Int)
          - ((slotStep ceiling st op).releases : Int) := by
      cases op with
      | acquire =>
        simp only [slotStep]
        split
        · simp; omega
        · exact h
      | release =>
        have h1n : st.releases + 1 ≤ st.succ_acquires := by
          simp only [slotStep] at h1
          split at h1 <;> simpa using h1
        have hpos : 0 < st.in_flight := by
          rw [h]
          have : (st.releases : Int) + 1 ≤ (st.succ_acquires : Int) := by
            exact_mod_cast h1n
          omega
        simp only [slotStep, if_pos hpos]
        simp
        omega
    rw [List.foldl_cons]
    apply ih _ hstep
    intro n
    have hn := hbal (n + 1)
    simpa [List.take_succ_cons, List.foldl_cons] using hn

/-- C4 (modelled from the spec, `concurrency_manager.py` not being among the
sources): the per-account in-flight counter satisfies
`0 ≤ in_flight ≤ ceiling` after every call sequence, is incremented only by
a successful `try_acquire` and never pushed below zero by `release`, and
once every release is paired with a prior successful acquisition and their
totals agree the counter is back at 0. -/
theorem in_flight_invariant (ceiling : Nat) (ops : List SlotOp) :
    (0 ≤ (runSlotOps ceiling ops).in_flight
      ∧ (runSlotOps ceiling ops).in_flight ≤ (ceiling : Int))
    ∧ (balancedPrefixes ceiling ops = true →
        (runSlotOps ceiling ops).releases = (runSlotOps ceiling ops).succ_acquires →
        (runSlotOps ceiling ops).in_flight = 0) := by
  constructor
  · exact runSlotOps_range_aux ceiling ops initSlotState (by simp [initSlotState])
      (by simp [initSlotState])
  · intro hbal heq
    have hb : ∀ n : Nat, ((ops.take n).foldl (slotStep ceiling) initSlotState).releases
        ≤ ((ops.take n).foldl (slotStep ceiling) initSlotState).succ_acquires := by
      intro n
      by_cases hn : n < ops.length + 1
      · have hmem := List.all_eq_true.mp hbal n (List.mem_range.mpr hn)
        exact of_decide_eq_true hmem
      · have hlen : ops.length ≤ n := by omega
        have htop := List.all_eq_true.mp hbal ops.length
          (List.mem_range.mpr (by omega))
        rw [List.take_of_length_le hlen, ← List.take_length (l := ops)]
        exact of_decide_eq_true htop
    have hba := runSlotOps_balance_aux ceiling ops initSlotState (by simp [initSlotState]) hb
    rw [runSlotOps] at heq ⊢
    rw [hba, heq]
    omega

/-- Witness for `in_flight_invariant`: with ceiling 2, the sequence
acquire, acquire, acquire (rejected at the ceiling), release, acquire,
release, release stays inside the range and ends with the counter back at
zero. -/
theorem in_flight_invariant_witness :
    0 ≤ (runSlotOps 2 [SlotOp.acquire, SlotOp.acquire, SlotOp.acquire, SlotOp.release,
        SlotOp.acquire, SlotOp.release, SlotOp.release]).in_flight
    ∧ (runSlotOps 2 [SlotOp.acquire, SlotOp.acquire, SlotOp.acquire, SlotOp.release,
        SlotOp.acquire, SlotOp.release, SlotOp.release]).in_flight ≤ (2 : Int)
    ∧ (runSlotOps 2 [SlotOp.acquire, SlotOp.acquire, SlotOp.acquire, SlotOp.release,
        SlotOp.acquire, SlotOp.release, SlotOp.release]).in_flight = 0 := by
  have h := in_flight_invariant 2 [SlotOp.acquire, SlotOp.acquire, SlotOp.acquire,
    SlotOp.release, SlotOp.acquire, SlotOp.release, SlotOp.release]
  exact ⟨h.1.1, h.1.2, h.2 (by decide) (by decide)⟩

end Flow2Api
